import Mathlib

/-!  Formal model of the Practice-Blog-Application (src/main.py): a Flask +
SQLAlchemy blog with three tables (user_accts, blog_posts, comments),
session login through flask_login, and an admin_only decorator guarding
post creation and editing.  Each request handler is embedded as a pure
function from (database state, session principal, form data) to a
HandlerResult holding the database afterwards, the session afterwards,
the flash messages emitted, and the response. -/

namespace Blog

/-- A row of the user_accts table (class UserAccts, src/main.py lines
80-90): primary key id, unique email, password hash, display name. -/
structure UserAccts where
  id : Nat
  email : String
  password : String
  name : String
deriving DecidableEq

/-- A row of the blog_posts table (class BlogPost, src/main.py lines
63-76): primary key id, author_id foreign key into user_accts, unique
title, subtitle, date stored as a display string, body, img_url. -/
structure BlogPost where
  id : Nat
  author_id : Nat
  title : String
  subtitle : String
  date : String
  body : String
  img_url : String
deriving DecidableEq

/-- A row of the comments table (class Comment, src/main.py lines
93-104): primary key id, author_id and post_id foreign keys, text. -/
structure Comment where
  id : Nat
  author_id : Nat
  post_id : Nat
  text : String
deriving DecidableEq

/-- The persistent database state: the three tables, each as its list of
rows in insertion order. -/
structure DBState where
  users : List UserAccts
  posts : List BlogPost
  comments : List Comment
deriving DecidableEq

/-- The empty database that db.create_all() produces on a fresh file. -/
def initialDB : DBState := ⟨[], [], []⟩

/-- A handler response: a rendered template, a redirect to a named
endpoint (with the optional path argument of
url_for left as an Option, as in url_for with post_id), a deliberate
abort with a status code, or an uncaught Python exception that Flask
surfaces as a 500 internal server error. -/
inductive Response where
  | render (template : String)
  | redirectTo (endpoint : String) (arg : Option Nat)
  | abort (code : Nat)
  | serverError (exc : String)
deriving DecidableEq

/-- The outcome of one request: the database afterwards, the session
principal afterwards (the logged-in user id that flask_login stores),
the flash messages emitted during the request, and the response. -/
structure HandlerResult where
  db : DBState
  session : Option Nat
  flashes : List String
  response : Response
deriving DecidableEq

/-- The first user whose email equals the given one:
db.session.execute(db.select(UserAccts).where(UserAccts.email == email))
followed by .scalar(), which yields the first row or None. -/
def findUserByEmail (db : DBState) (email : String) : Option UserAccts :=
  db.users.find? (fun u => u.email == email)

/-- db.get_or_404(BlogPost, post_id): the post with the given primary
key, or None (the caller then aborts with 404). -/
def findPost (db : DBState) (post_id : Nat) : Option BlogPost :=
  db.posts.find? (fun p => p.id == post_id)

/-- The autoincrement primary key SQLite assigns to the next inserted
row: one more than the largest id present. -/
def nextId (ids : List Nat) : Nat := ids.foldr (fun a b => max a b) 0 + 1

/-- The fields of RegisterForm that the register handler reads. -/
structure RegisterForm where
  name : String
  email : String
  password : String
deriving DecidableEq

/-- The fields of LoginForm that the login handler reads. -/
structure LoginForm where
  email : String
  password : String
deriving DecidableEq

/-- The field of CommentForm that the show_post handler reads. -/
structure CommentForm where
  comment_text : String
deriving DecidableEq

/-- The fields of CreatePostForm that the add_new_post and edit_post
handlers read. -/
structure CreatePostForm where
  title : String
  subtitle : String
  img_url : String
  body : String
deriving DecidableEq

/-- A calendar date as datetime.date holds it. -/
structure PyDate where
  year : Nat
  month : Nat
  day : Nat
deriving DecidableEq

/-- The full month name that the strftime directive B renders. -/
def monthName : Nat → String
  | 1 => "January" | 2 => "February" | 3 => "March" | 4 => "April"
  | 5 => "May" | 6 => "June" | 7 => "July" | 8 => "August"
  | 9 => "September" | 10 => "October" | 11 => "November" | 12 => "December"
  | _ => ""

/-- The zero-padded two-digit day that the strftime directive d renders. -/
def pad2 (n : Nat) : String := if n < 10 then "0" ++ toString n else toString n

/-- date.today().strftime of the pattern B-space-d-comma-space-Y, the
display string stamped on a new post, e.g. "October 12, 2026". -/
def strftimeDisplay (d : PyDate) : String :=
  monthName d.month ++ " " ++ pad2 d.day ++ ", " ++ toString d.year

/-- The admin_only decorator (src/main.py lines 41-49).  It reads
current_user.id and aborts with 403 unless the id equals 1; otherwise it
runs the wrapped handler.  When no one is logged in, flask_login binds
current_user to its AnonymousUserMixin; that class provides only
is_authenticated, is_active, is_anonymous and get_id, so the attribute
read current_user.id raises AttributeError, which no handler catches and
Flask therefore surfaces as a 500 internal server error, not a 403. -/
def admin_only (session : Option Nat) (db : DBState)
    (handler : Nat → HandlerResult) : HandlerResult :=
  match session with
  | none => ⟨db, none, [], .serverError "AttributeError: AnonymousUserMixin has no attribute id"⟩
  | some uid => if uid ≠ 1 then ⟨db, some uid, [], .abort 403⟩ else handler uid

/-- The register handler (src/main.py lines 112-138).  gen models
werkzeug generate_password_hash with its salt and method fixed.  A form
of none stands for a GET request or a submission that fails form
validation, where validate_on_submit() is false and the template is
rendered. -/
def register (gen : String → String) (db : DBState) (session : Option Nat)
    (form : Option RegisterForm) : HandlerResult :=
  match form with
  | none => ⟨db, session, [], .render "register.html"⟩
  | some f =>
    match findUserByEmail db f.email with
    | some _ =>
      ⟨db, session, ["You\x27ve already signed up with that email, log in instead!"],
        .redirectTo "login" none⟩
    | none =>
      let new_user : UserAccts :=
        ⟨nextId (db.users.map UserAccts.id), f.email, gen f.password, f.name⟩
      ⟨{ db with users := db.users ++ [new_user] }, some new_user.id, [],
        .redirectTo "get_all_posts" none⟩

/-- The login handler (src/main.py lines 142-166).  check models werkzeug
check_password_hash applied to the stored hash and the submitted
plaintext. -/
def login (check : String → String → Bool) (db : DBState) (session : Option Nat)
    (form : Option LoginForm) : HandlerResult :=
  match form with
  | none => ⟨db, session, [], .render "login.html"⟩
  | some f =>
    match findUserByEmail db f.email with
    | none =>
      ⟨db, session, ["That email does not exist, please try again."],
        .redirectTo "login" none⟩
    | some u =>
      if ¬ check u.password f.password then
        ⟨db, session, ["Password incorrect, please try again."],
          .redirectTo "login" none⟩
      else
        ⟨db, some u.id, [], .redirectTo "get_all_posts" none⟩

/-- The logout handler (src/main.py lines 169-172): logout_user() clears
the session unconditionally, then redirect to the listing. -/
def logout (db : DBState) : HandlerResult :=
  ⟨db, none, [], .redirectTo "get_all_posts" none⟩

/-- The get_all_posts handler (src/main.py lines 175-179): reads the
posts and renders the listing; no state change. -/
def get_all_posts (db : DBState) (session : Option Nat) : HandlerResult :=
  ⟨db, session, [], .render "index.html"⟩

/-- The show_post handler (src/main.py lines 183-199): 404 when the post
is absent; on a valid comment submission, redirect to login with a flash
when unauthenticated, else insert the comment attributed to the current
user and render the post page. -/
def show_post (db : DBState) (session : Option Nat) (post_id : Nat)
    (form : Option CommentForm) : HandlerResult :=
  match findPost db post_id with
  | none => ⟨db, session, [], .abort 404⟩
  | some _ =>
    match form with
    | none => ⟨db, session, [], .render "post.html"⟩
    | some f =>
      match session with
      | none =>
        ⟨db, none, ["You need to Login or register to comment"],
          .redirectTo "login" none⟩
      | some uid =>
        let new_comment : Comment :=
          ⟨nextId (db.comments.map Comment.id), uid, post_id, f.comment_text⟩
        ⟨{ db with comments := db.comments ++ [new_comment] }, some uid, [],
          .render "post.html"⟩

/-- Committing an INSERT into blog_posts: the unique=True constraint on
the title column (src/main.py line 70) makes SQLite reject a row whose
title an existing row already carries; the handler does not catch the
resulting IntegrityError. -/
def insertPost (db : DBState) (p : BlogPost) : Except String DBState :=
  if db.posts.any (fun q => q.title == p.title) then
    .error "IntegrityError: UNIQUE constraint failed: blog_posts.title"
  else
    .ok { db with posts := db.posts ++ [p] }

/-- Committing an UPDATE of the blog_posts row with primary key pid: the
unique=True constraint on the title column rejects a new title that some
other row already carries. -/
def updatePost (db : DBState) (pid : Nat) (upd : BlogPost) : Except String DBState :=
  if db.posts.any (fun q => (q.id != pid) && (q.title == upd.title)) then
    .error "IntegrityError: UNIQUE constraint failed: blog_posts.title"
  else
    .ok { db with posts := db.posts.map (fun q => if q.id == pid then upd else q) }

/-- The add_new_post handler (src/main.py lines 203-219), wrapped by
admin_only.  On a valid submission it builds a BlogPost whose author is
the current session principal and whose date is today rendered through
strftime, inserts it, and redirects to the listing. -/
def add_new_post (db : DBState) (session : Option Nat) (today : PyDate)
    (form : Option CreatePostForm) : HandlerResult :=
  admin_only session db (fun uid =>
    match form with
    | none => ⟨db, some uid, [], .render "make-post.html"⟩
    | some f =>
      let new_post : BlogPost :=
        ⟨nextId (db.posts.map BlogPost.id), uid, f.title, f.subtitle,
          strftimeDisplay today, f.body, f.img_url⟩
      match insertPost db new_post with
      | .error e => ⟨db, some uid, [], .serverError e⟩
      | .ok db2 => ⟨db2, some uid, [], .redirectTo "get_all_posts" none⟩)

/-- The edit_post handler (src/main.py lines 222-243), wrapped by
admin_only.  It 404s when the post is absent; on a valid submission it
overwrites title, subtitle, img_url and body with the submitted values,
reassigns the author to the current session principal, leaves the date
untouched, commits, and redirects to the view page of the post. -/
def edit_post (db : DBState) (session : Option Nat) (post_id : Nat)
    (form : Option CreatePostForm) : HandlerResult :=
  admin_only session db (fun uid =>
    match findPost db post_id with
    | none => ⟨db, some uid, [], .abort 404⟩
    | some post =>
      match form with
      | none => ⟨db, some uid, [], .render "make-post.html"⟩
      | some f =>
        let upd : BlogPost :=
          ⟨post.id, uid, f.title, f.subtitle, post.date, f.body, f.img_url⟩
        match updatePost db post.id upd with
        | .error e => ⟨db, some uid, [], .serverError e⟩
        | .ok db2 => ⟨db2, some uid, [], .redirectTo "show_post" (some post.id)⟩)

/-- The delete_post handler (src/main.py lines 246-252).  The route
carries no admin_only decorator (the TODO comment above it
notwithstanding), so every caller reaches the deletion.  The
BlogPost.comments relationship declares no delete cascade, so at flush
SQLAlchemy loads the comments referencing the post and nulls their
post_id; that column is NOT NULL (its Mapped annotation is
non-Optional), so when such comments exist the commit dies with an
uncaught IntegrityError and nothing is deleted.  Only a post that no
comment references is actually removed, and the comments table is never
touched in either case. -/
def delete_post (db : DBState) (session : Option Nat) (post_id : Nat) : HandlerResult :=
  match findPost db post_id with
  | none => ⟨db, session, [], .abort 404⟩
  | some _ =>
    if db.comments.any (fun c => c.post_id == post_id) then
      ⟨db, session, [],
        .serverError "IntegrityError: NOT NULL constraint failed: comments.post_id"⟩
    else
      ⟨{ db with posts := db.posts.filter (fun p => p.id != post_id) }, session, [],
        .redirectTo "get_all_posts" none⟩

/-- Database states reachable from the fresh empty database through any
sequence of requests, each with an arbitrary session principal, form
data, date and hashing helpers. -/
inductive Reachable : DBState → Prop where
  | init : Reachable initialDB
  | stepRegister {db : DBState} (gen : String → String) (s : Option Nat)
      (f : Option RegisterForm) :
      Reachable db → Reachable (register gen db s f).db
  | stepLogin {db : DBState} (check : String → String → Bool) (s : Option Nat)
      (f : Option LoginForm) :
      Reachable db → Reachable (login check db s f).db
  | stepLogout {db : DBState} : Reachable db → Reachable (logout db).db
  | stepGetAllPosts {db : DBState} (s : Option Nat) :
      Reachable db → Reachable (get_all_posts db s).db
  | stepShowPost {db : DBState} (s : Option Nat) (pid : Nat) (f : Option CommentForm) :
      Reachable db → Reachable (show_post db s pid f).db
  | stepAddNewPost {db : DBState} (s : Option Nat) (today : PyDate)
      (f : Option CreatePostForm) :
      Reachable db → Reachable (add_new_post db s today f).db
  | stepEditPost {db : DBState} (s : Option Nat) (pid : Nat) (f : Option CreatePostForm) :
      Reachable db → Reachable (edit_post db s pid f).db
  | stepDeletePost {db : DBState} (s : Option Nat) (pid : Nat) :
      Reachable db → Reachable (delete_post db s pid).db

/-- The blog_posts table is well formed: no two rows share a primary key
and no two rows share a title. -/
def PostsOk (db : DBState) : Prop :=
  db.posts.Pairwise (fun p q => p.id ≠ q.id ∧ p.title ≠ q.title)

/-- A concrete password hasher standing in for generate_password_hash in
concrete evaluations. -/
def genW : String → String := fun p => "#" ++ p

/-- A concrete hash checker standing in for check_password_hash in
concrete evaluations: it accepts exactly the hashes genW produces. -/
def checkW : String → String → Bool := fun h p => h == "#" ++ p

/-- A concrete date for evaluations. -/
def dateW : PyDate := ⟨2026, 10, 12⟩

/-- The administrator account, primary key 1, for concrete evaluations. -/
def adminW : UserAccts := ⟨1, "admin@x.com", "#adminpw", "Admin"⟩

/-- A second, non-admin account, primary key 2, for concrete evaluations. -/
def userW : UserAccts := ⟨2, "b@x.com", "#pw2", "Bea"⟩

/-- A concrete post, primary key 1, authored by the admin. -/
def postW : BlogPost := ⟨1, 1, "Hello", "First post", "October 12, 2026", "Body text", "img.png"⟩

/-- A concrete comment by account 2 on post 1. -/
def commentW : Comment := ⟨1, 2, 1, "Nice post"⟩

/-- A concrete database with two accounts, one post and one comment. -/
def dbW : DBState := ⟨[adminW, userW], [postW], [commentW]⟩

/-- A concrete database with two accounts and one post that no comment
references. -/
def dbNC : DBState := ⟨[adminW, userW], [postW], []⟩

theorem le_foldr_max {a : Nat} {l : List Nat} (h : a ∈ l) :
    a ≤ l.foldr (fun x y => max x y) 0 := by
  induction l with
  | nil => cases h
  | cons b t ih =>
    rcases List.mem_cons.mp h with rfl | hmem
    · exact Nat.le_max_left _ _
    · exact le_trans (ih hmem) (Nat.le_max_right _ _)

theorem mem_ne_nextId {ids : List Nat} {a : Nat} (h : a ∈ ids) : a ≠ nextId ids := by
  have hle := le_foldr_max h
  unfold nextId
  omega

theorem register_db_posts (gen : String → String) (db : DBState) (s : Option Nat)
    (f : Option RegisterForm) : (register gen db s f).db.posts = db.posts := by
  cases f with
  | none => rfl
  | some f => cases hf : findUserByEmail db f.email <;> simp [register, hf]

theorem login_db_posts (check : String → String → Bool) (db : DBState) (s : Option Nat)
    (f : Option LoginForm) : (login check db s f).db.posts = db.posts := by
  cases f with
  | none => rfl
  | some f =>
    cases hf : findUserByEmail db f.email with
    | none => simp [login, hf]
    | some u =>
      simp only [login, hf]
      split <;> rfl

theorem show_post_db_posts (db : DBState) (s : Option Nat) (pid : Nat)
    (f : Option CommentForm) : (show_post db s pid f).db.posts = db.posts := by
  unfold show_post
  cases findPost db pid with
  | none => rfl
  | some p =>
    cases f with
    | none => rfl
    | some f => cases s <;> rfl

theorem insertPost_ok {db : DBState} {p : BlogPost} {db2 : DBState}
    (h : insertPost db p = .ok db2) :
    db2 = { db with posts := db.posts ++ [p] } ∧ ∀ q ∈ db.posts, q.title ≠ p.title := by
  unfold insertPost at h
  split at h
  · cases h
  · next hcond =>
    refine ⟨(Except.ok.inj h).symm, ?_⟩
    intro q hq hEq
    exact hcond (List.any_eq_true.mpr ⟨q, hq, by simp [hEq]⟩)

theorem updatePost_ok {db : DBState} {pid : Nat} {upd : BlogPost} {db2 : DBState}
    (h : updatePost db pid upd = .ok db2) :
    db2 = { db with posts := db.posts.map (fun q => if q.id == pid then upd else q) } ∧
      ∀ q ∈ db.posts, q.id ≠ pid → q.title ≠ upd.title := by
  unfold updatePost at h
  split at h
  · cases h
  · next hcond =>
    refine ⟨(Except.ok.inj h).symm, ?_⟩
    intro q hq hid hEq
    exact hcond (List.any_eq_true.mpr ⟨q, hq, by simp [bne_iff_ne, hid, hEq]⟩)

theorem PostsOk_insert {db : DBState} {p : BlogPost} {db2 : DBState}
    (hid : p.id = nextId (db.posts.map BlogPost.id))
    (h : insertPost db p = .ok db2) (hok : PostsOk db) : PostsOk db2 := by
  obtain ⟨rfl, htitle⟩ := insertPost_ok h
  unfold PostsOk at hok ⊢
  dsimp only
  rw [List.pairwise_append]
  refine ⟨hok, List.pairwise_singleton _ _, ?_⟩
  intro a ha b hb
  rw [List.mem_singleton] at hb
  subst hb
  refine ⟨?_, htitle a ha⟩
  rw [hid]
  exact mem_ne_nextId (List.mem_map_of_mem _ ha)

theorem PostsOk_update {db : DBState} {pid : Nat} {upd : BlogPost} {db2 : DBState}
    (hid : upd.id = pid)
    (h : updatePost db pid upd = .ok db2) (hok : PostsOk db) : PostsOk db2 := by
  obtain ⟨rfl, htitle⟩ := updatePost_ok h
  unfold PostsOk at hok ⊢
  dsimp only
  rw [List.pairwise_map]
  refine hok.imp_of_mem ?_
  intro a b ha hb hab
  by_cases hA : a.id = pid <;> by_cases hB : b.id = pid
  · exact absurd (hA.trans hB.symm) hab.1
  · simp only [hA, beq_self_eq_true, if_true, show (b.id == pid) = false by simp [hB]]
    simp only [Bool.false_eq_true, if_false]
    exact ⟨by rw [hid, ← hA]; exact hab.1, fun he => htitle b hb hB he.symm⟩
  · simp only [hB, beq_self_eq_true, if_true, show (a.id == pid) = false by simp [hA]]
    simp only [Bool.false_eq_true, if_false]
    exact ⟨by rw [hid, ← hB]; exact fun he => hab.1 he, htitle a ha hA⟩
  · simp only [show (a.id == pid) = false by simp [hA],
      show (b.id == pid) = false by simp [hB]]
    simp only [Bool.false_eq_true, if_false]
    exact hab

theorem PostsOk_of_posts_eq {d1 d2 : DBState} (h : d2.posts = d1.posts)
    (hok : PostsOk d1) : PostsOk d2 := by
  unfold PostsOk at hok ⊢
  rw [h]
  exact hok

theorem PostsOk_add_new_post (db : DBState) (s : Option Nat) (today : PyDate)
    (f : Option CreatePostForm) (hok : PostsOk db) :
    PostsOk (add_new_post db s today f).db := by
  unfold add_new_post admin_only
  cases s with
  | none => exact hok
  | some uid =>
    dsimp only
    split
    · exact hok
    · cases f with
      | none => exact hok
      | some f =>
        dsimp only
        split
        · exact hok
        · next db2 hins => exact PostsOk_insert rfl hins hok

theorem PostsOk_edit_post (db : DBState) (s : Option Nat) (pid : Nat)
    (f : Option CreatePostForm) (hok : PostsOk db) :
    PostsOk (edit_post db s pid f).db := by
  unfold edit_post admin_only
  cases s with
  | none => exact hok
  | some uid =>
    dsimp only
    split
    · exact hok
    · cases hfind : findPost db pid with
      | none => exact hok
      | some post =>
        cases f with
        | none => exact hok
        | some f =>
          dsimp only
          split
          · exact hok
          · next db2 hupd =>
            exact @PostsOk_update db post.id
              ⟨post.id, uid, f.title, f.subtitle, post.date, f.body, f.img_url⟩ db2 rfl hupd hok

theorem PostsOk_delete_post (db : DBState) (s : Option Nat) (pid : Nat)
    (hok : PostsOk db) : PostsOk (delete_post db s pid).db := by
  unfold delete_post
  cases findPost db pid with
  | none => exact hok
  | some p =>
    dsimp only
    split
    · exact hok
    · unfold PostsOk at hok ⊢
      exact List.Pairwise.sublist (List.filter_sublist _) hok

theorem reachable_PostsOk {db : DBState} (h : Reachable db) : PostsOk db := by
  induction h with
  | init => exact List.Pairwise.nil
  | stepRegister gen s f h ih => exact PostsOk_of_posts_eq (register_db_posts gen _ s f) ih
  | stepLogin check s f h ih => exact PostsOk_of_posts_eq (login_db_posts check _ s f) ih
  | stepLogout h ih => exact ih
  | stepGetAllPosts s h ih => exact ih
  | stepShowPost s pid f h ih => exact PostsOk_of_posts_eq (show_post_db_posts _ s pid f) ih
  | stepAddNewPost s today f h ih => exact PostsOk_add_new_post _ s today f ih
  | stepEditPost s pid f h ih => exact PostsOk_edit_post _ s pid f ih
  | stepDeletePost s pid h ih => exact PostsOk_delete_post _ s pid ih

/-- C1: evaluation at the failing input.  The delete-post route carries no
admin_only decorator, so a request by the authenticated non-admin
principal 2 on the existing post 1, which no comment references,
deletes the post and redirects to the listing, instead of being
rejected with 403 Forbidden as the admin-only intent requires. -/
theorem delete_post_not_admin_guarded :
    delete_post dbNC (some 2) 1 =
      ⟨⟨dbNC.users, [], []⟩, some 2, [], .redirectTo "get_all_posts" none⟩ ∧
    (delete_post dbNC (some 2) 1).response ≠ .abort 403 := by
  constructor
  · rfl
  · decide

/-- C2: the admin_only guard on the create-post and edit-post routes
rejects an authenticated principal whose id is not 1 with 403 Forbidden
before the wrapped handler runs: the database, the session and the flash
list are untouched, so no post is created or modified. -/
theorem admin_guard_rejects_nonadmin (db : DBState) (uid : Nat) (today : PyDate)
    (pid : Nat) (f g : Option CreatePostForm) (h : uid ≠ 1) :
    add_new_post db (some uid) today f = ⟨db, some uid, [], .abort 403⟩ ∧
    edit_post db (some uid) pid g = ⟨db, some uid, [], .abort 403⟩ := by
  constructor <;> simp [add_new_post, edit_post, admin_only, h]

/-- C2 witness: the concrete non-admin principal 2 is rejected on both
guarded routes of the concrete database. -/
theorem admin_guard_rejects_nonadmin_witness :
    (2 : Nat) ≠ 1 ∧
      (add_new_post dbW (some 2) dateW none = ⟨dbW, some 2, [], .abort 403⟩ ∧
       edit_post dbW (some 2) 1 none = ⟨dbW, some 2, [], .abort 403⟩) :=
  ⟨by decide, admin_guard_rejects_nonadmin dbW 2 dateW 1 none none (by decide)⟩

/-- C3 counterexample: an anonymous request to the guarded create-post
route is not answered with 403 Forbidden as the claim states; reading
current_user.id on flask_login's anonymous principal raises
AttributeError, which surfaces as an uncaught 500 server error. -/
theorem admin_guard_anonymous_counterexample :
    (add_new_post dbW none dateW none).response ≠ .abort 403 ∧
    (add_new_post dbW none dateW none).response =
      .serverError "AttributeError: AnonymousUserMixin has no attribute id" := by
  constructor
  · decide
  · rfl

/-- C3 amended: for every request to a guarded operation with no session
principal the wrapped operation does not execute and the database is
unchanged, so the anonymous caller never succeeds; but the rejection is
an uncaught server error caused by reading the missing id attribute of
the anonymous principal, not a 403 Forbidden response. -/
theorem admin_guard_anonymous (db : DBState) (today : PyDate) (pid : Nat)
    (f g : Option CreatePostForm) :
    add_new_post db none today f =
      ⟨db, none, [], .serverError "AttributeError: AnonymousUserMixin has no attribute id"⟩ ∧
    edit_post db none pid g =
      ⟨db, none, [], .serverError "AttributeError: AnonymousUserMixin has no attribute id"⟩ :=
  ⟨rfl, rfl⟩

/-- C4: a registration submission whose email an already-stored user
carries changes nothing of the database, in particular creates no second
user, and redirects to the login page with a flash notice. -/
theorem register_duplicate_email (gen : String → String) (db : DBState)
    (s : Option Nat) (f : RegisterForm) (u : UserAccts)
    (h : findUserByEmail db f.email = some u) :
    register gen db s (some f) =
      ⟨db, s, ["You\x27ve already signed up with that email, log in instead!"],
        .redirectTo "login" none⟩ := by
  simp [register, h]

/-- C4 witness: registering a second account with the stored email of
account 2 leaves the concrete database unchanged. -/
theorem register_duplicate_email_witness :
    findUserByEmail dbW "b@x.com" = some userW ∧
      register genW dbW none (some ⟨"Bob", "b@x.com", "pw"⟩) =
        ⟨dbW, none, ["You\x27ve already signed up with that email, log in instead!"],
          .redirectTo "login" none⟩ :=
  ⟨by decide, register_duplicate_email genW dbW none ⟨"Bob", "b@x.com", "pw"⟩ userW (by decide)⟩

/-- C5: a comment-form submission on an existing post by an
unauthenticated requester creates no comment (the database is unchanged)
and redirects to the login page with a flash notice. -/
theorem comment_unauthenticated (db : DBState) (pid : Nat) (f : CommentForm)
    (p : BlogPost) (h : findPost db pid = some p) :
    show_post db none pid (some f) =
      ⟨db, none, ["You need to Login or register to comment"], .redirectTo "login" none⟩ := by
  simp [show_post, h]

/-- C5 witness: an anonymous comment on the concrete post 1 leaves the
database unchanged and redirects to login. -/
theorem comment_unauthenticated_witness :
    findPost dbW 1 = some postW ∧
      show_post dbW none 1 (some ⟨"Hi"⟩) =
        ⟨dbW, none, ["You need to Login or register to comment"], .redirectTo "login" none⟩ :=
  ⟨by decide, comment_unauthenticated dbW 1 ⟨"Hi"⟩ postW (by decide)⟩

/-- C6: title uniqueness: in every database reachable from the fresh one
no two posts share a title, and a create-post submission by the admin
whose title an existing post already carries fails at the storage
boundary with an uncaught IntegrityError, leaving the database
unchanged. -/
theorem post_titles_unique :
    (∀ db : DBState, Reachable db → db.posts.Pairwise (fun p q => p.title ≠ q.title)) ∧
    (∀ (db : DBState) (today : PyDate) (f : CreatePostForm),
      (∃ p ∈ db.posts, p.title = f.title) →
      add_new_post db (some 1) today (some f) =
        ⟨db, some 1, [],
          .serverError "IntegrityError: UNIQUE constraint failed: blog_posts.title"⟩) := by
  constructor
  · intro db h
    exact (reachable_PostsOk h).imp (fun hpq => hpq.2)
  · intro db today f hex
    obtain ⟨p, hp, ht⟩ := hex
    have hany : db.posts.any (fun q => q.title == f.title) = true :=
      List.any_eq_true.mpr ⟨p, hp, by simp [ht]⟩
    simp [add_new_post, admin_only, insertPost, hany]

/-- C6 witness: a database reached by one admin post creation has
pairwise distinct titles, and re-submitting the stored title of the
concrete database fails with the integrity error. -/
theorem post_titles_unique_witness :
    ((add_new_post initialDB (some 1) dateW
        (some ⟨"Hello", "S", "i", "B"⟩)).db.posts.Pairwise (fun p q => p.title ≠ q.title)) ∧
      add_new_post dbW (some 1) dateW (some ⟨"Hello", "S2", "i2", "B2"⟩) =
        ⟨dbW, some 1, [],
          .serverError "IntegrityError: UNIQUE constraint failed: blog_posts.title"⟩ :=
  ⟨post_titles_unique.1 _
      (Reachable.stepAddNewPost (some 1) dateW (some ⟨"Hello", "S", "i", "B"⟩) Reachable.init),
    post_titles_unique.2 dbW dateW ⟨"Hello", "S2", "i2", "B2"⟩ ⟨postW, by decide, rfl⟩⟩

/-- C7: login with an unknown email and login with a wrong password flash
two distinct messages but redirect to the same login endpoint, and
neither failure establishes a session principal; a successful login
binds the session to the matched user and redirects to the listing. -/
theorem login_failure_modes (check : String → String → Bool) (db : DBState)
    (s : Option Nat) (f : LoginForm) :
    (findUserByEmail db f.email = none →
      login check db s (some f) =
        ⟨db, s, ["That email does not exist, please try again."], .redirectTo "login" none⟩) ∧
    (∀ u, findUserByEmail db f.email = some u → check u.password f.password = false →
      login check db s (some f) =
        ⟨db, s, ["Password incorrect, please try again."], .redirectTo "login" none⟩) ∧
    ("That email does not exist, please try again." ≠
      "Password incorrect, please try again.") ∧
    (∀ u, findUserByEmail db f.email = some u → check u.password f.password = true →
      login check db s (some f) = ⟨db, some u.id, [], .redirectTo "get_all_posts" none⟩) := by
  refine ⟨?_, ?_, by decide, ?_⟩
  · intro h
    simp [login, h]
  · intro u hu hc
    simp [login, hu, hc]
  · intro u hu hc
    simp [login, hu, hc]

/-- C7 witness: the three login outcomes evaluated on the concrete
database: unknown email, known email with a wrong password, and a
successful login as account 2. -/
theorem login_failure_modes_witness :
    login checkW dbW none (some ⟨"z@x.com", "pw2"⟩) =
      ⟨dbW, none, ["That email does not exist, please try again."], .redirectTo "login" none⟩ ∧
    login checkW dbW none (some ⟨"b@x.com", "bad"⟩) =
      ⟨dbW, none, ["Password incorrect, please try again."], .redirectTo "login" none⟩ ∧
    login checkW dbW none (some ⟨"b@x.com", "pw2"⟩) =
      ⟨dbW, some 2, [], .redirectTo "get_all_posts" none⟩ :=
  ⟨(login_failure_modes checkW dbW none ⟨"z@x.com", "pw2"⟩).1 (by decide),
   (login_failure_modes checkW dbW none ⟨"b@x.com", "bad"⟩).2.1 userW (by decide) (by decide),
   (login_failure_modes checkW dbW none ⟨"b@x.com", "pw2"⟩).2.2.2 userW (by decide) (by decide)⟩

/-- C8: a valid create-post submission by the admin principal appends
exactly one new post, stamped with today rendered as the display string
and authored by the session principal, and redirects to the listing. -/
theorem add_new_post_success (db : DBState) (today : PyDate) (f : CreatePostForm)
    (h : ∀ p ∈ db.posts, p.title ≠ f.title) :
    add_new_post db (some 1) today (some f) =
      ⟨{ db with posts := db.posts ++
          [⟨nextId (db.posts.map BlogPost.id), 1, f.title, f.subtitle,
            strftimeDisplay today, f.body, f.img_url⟩] },
        some 1, [], .redirectTo "get_all_posts" none⟩ := by
  have hany : db.posts.any (fun q => q.title == f.title) = false := by
    rw [List.any_eq_false]
    intro q hq
    simp [h q hq]
  simp [add_new_post, admin_only, insertPost, hany]

/-- C8 witness: the admin creates a post with the fresh title "World" on
the concrete database; exactly that one row is appended. -/
theorem add_new_post_success_witness :
    (∀ p ∈ dbW.posts, p.title ≠ "World") ∧
      add_new_post dbW (some 1) dateW (some ⟨"World", "S", "i", "B"⟩) =
        ⟨{ dbW with posts := dbW.posts ++
            [⟨nextId (dbW.posts.map BlogPost.id), 1, "World", "S",
              strftimeDisplay dateW, "B", "i"⟩] },
          some 1, [], .redirectTo "get_all_posts" none⟩ :=
  ⟨by decide, add_new_post_success dbW dateW ⟨"World", "S", "i", "B"⟩ (by decide)⟩

/-- C9: a valid edit-post submission by the admin on an existing post
rewrites exactly that post: title, subtitle, img_url and body take the
submitted values, the author is reassigned to the session principal and
the date is kept; the response redirects to the view page of the post,
and every other post is still present unchanged. -/
theorem edit_post_success (db : DBState) (pid : Nat) (f : CreatePostForm)
    (post : BlogPost) (hp : findPost db pid = some post)
    (ht : ∀ q ∈ db.posts, q.id ≠ post.id → q.title ≠ f.title) :
    edit_post db (some 1) pid (some f) =
      ⟨{ db with posts := db.posts.map (fun q =>
          if q.id == post.id then
            ⟨post.id, 1, f.title, f.subtitle, post.date, f.body, f.img_url⟩
          else q) },
        some 1, [], .redirectTo "show_post" (some post.id)⟩ ∧
    ∀ q ∈ db.posts, q.id ≠ post.id →
      q ∈ (edit_post db (some 1) pid (some f)).db.posts := by
  have hany : db.posts.any (fun q => (q.id != post.id) && (q.title == f.title)) = false := by
    rw [List.any_eq_false]
    intro q hq
    by_cases hid : q.id = post.id
    · simp [hid]
    · simp [hid, ht q hq hid]
  have heq : edit_post db (some 1) pid (some f) =
      ⟨{ db with posts := db.posts.map (fun q =>
          if q.id == post.id then
            ⟨post.id, 1, f.title, f.subtitle, post.date, f.body, f.img_url⟩
          else q) },
        some 1, [], .redirectTo "show_post" (some post.id)⟩ := by
    simp [edit_post, admin_only, hp, updatePost, hany]
  refine ⟨heq, ?_⟩
  intro q hq hne
  rw [heq]
  exact List.mem_map.mpr ⟨q, hq, by simp [hne]⟩

/-- C9 witness: the admin edits the concrete post 1; the single post row
is rewritten in place and the response redirects to its view page. -/
theorem edit_post_success_witness :
    findPost dbW 1 = some postW ∧
      edit_post dbW (some 1) 1 (some ⟨"Hello2", "S2", "i2", "B2"⟩) =
        ⟨{ dbW with posts := dbW.posts.map (fun q =>
            if q.id == postW.id then
              ⟨postW.id, 1, "Hello2", "S2", postW.date, "B2", "i2"⟩
            else q) },
          some 1, [], .redirectTo "show_post" (some postW.id)⟩ :=
  ⟨by decide,
    (edit_post_success dbW 1 ⟨"Hello2", "S2", "i2", "B2"⟩ postW (by decide) (by decide)).1⟩

/-- C10 counterexample: deleting post 1 of the concrete database, which
comment 1 references, does not orphan the comments: the ORM's attempt
to null the NOT NULL post_id column of the referencing comment kills
the commit with an uncaught IntegrityError, the whole database is
unchanged and the post itself survives, so no deletion takes place at
all and the comments are never orphaned. -/
theorem delete_post_orphan_counterexample :
    (delete_post dbW (some 1) 1).db = dbW ∧
    findPost (delete_post dbW (some 1) 1).db 1 = some postW ∧
    (delete_post dbW (some 1) 1).response =
      .serverError "IntegrityError: NOT NULL constraint failed: comments.post_id" := by
  refine ⟨rfl, ?_, rfl⟩
  decide

/-- C10 amended: a delete-post request on an existing post never deletes
or modifies any comment, but not by orphaning: when comments reference
the post, the flush tries to null their NOT NULL post_id column, dies
with an uncaught IntegrityError and deletes nothing at all; only when
no comment references the post is the post row alone removed.  In
either case the comments table is untouched. -/
theorem delete_post_never_touches_comments (db : DBState) (s : Option Nat) (pid : Nat)
    (p : BlogPost) (h : findPost db pid = some p) :
    (delete_post db s pid).db.comments = db.comments ∧
    (db.comments.any (fun c => c.post_id == pid) = true →
      delete_post db s pid =
        ⟨db, s, [],
          .serverError "IntegrityError: NOT NULL constraint failed: comments.post_id"⟩) ∧
    (db.comments.any (fun c => c.post_id == pid) = false →
      delete_post db s pid =
        ⟨{ db with posts := db.posts.filter (fun q => q.id != pid) }, s, [],
          .redirectTo "get_all_posts" none⟩) := by
  refine ⟨?_, ?_, ?_⟩
  · cases hc : db.comments.any (fun c => c.post_id == pid) <;> simp [delete_post, h, hc]
  · intro hc
    simp [delete_post, h, hc]
  · intro hc
    simp [delete_post, h, hc]

/-- C10 witness: on the concrete database, where comment 1 references
post 1, the delete request leaves the comments table unchanged and ends
in the integrity error with nothing deleted. -/
theorem delete_post_never_touches_comments_witness :
    findPost dbW 1 = some postW ∧
      (delete_post dbW (some 1) 1).db.comments = dbW.comments ∧
      dbW.comments.any (fun c => c.post_id == 1) = true ∧
      delete_post dbW (some 1) 1 =
        ⟨dbW, some 1, [],
          .serverError "IntegrityError: NOT NULL constraint failed: comments.post_id"⟩ :=
  ⟨by decide,
   (delete_post_never_touches_comments dbW (some 1) 1 postW (by decide)).1,
   by decide,
   (delete_post_never_touches_comments dbW (some 1) 1 postW (by decide)).2.1 (by decide)⟩

end Blog
